import Mathlib

/-!
Verification of the iSPY shoplift-alert core against its specification.

The TypeScript modules under `lib/grocery-shoplift` (gate, tracking, suspicion),
`lib/shoplift-alerts` (alert-gate, pipeline) and the voice/judge strategy files
are embedded shallowly: JavaScript numbers become rationals (`ℚ`), maps keyed by
strings become functions `String → Option _` (with insertion-ordered lists where
iteration order matters), and fallible/async steps become `Except`-valued
oracles passed in explicitly.  Each definition mirrors one source function.
-/

/- ## `lib/grocery-shoplift/gate.ts` — alert gate -/

/-- Configuration knobs resolved from the environment by `getCameraCooldown`,
`getTrackCooldown` and `getJudgeMinConfidence`; defaults 20 s, 30 s, 0.7. -/
structure GateConfig where
  cameraCooldownSeconds : ℚ
  trackCooldownSeconds : ℚ
  judgeMinConfidence : ℚ

/-- The documented default configuration of `gate.ts`. -/
def defaultGateConfig : GateConfig :=
  { cameraCooldownSeconds := 20, trackCooldownSeconds := 30, judgeMinConfidence := 7/10 }

/-- The two module-level maps `lastTriggerByCamera` / `lastTriggerByTrack`. -/
structure GateState where
  lastTriggerByCamera : String → Option ℚ
  lastTriggerByTrack : String → Option ℚ

/-- The state produced by `resetGate()`: both maps empty. -/
def emptyGateState : GateState :=
  { lastTriggerByCamera := fun _ => none, lastTriggerByTrack := fun _ => none }

/-- Rejection reasons of `gate.ts`'s `GateDecision`. -/
inductive GateReason
  | below_confidence
  | camera_cooldown
  | track_cooldown
deriving DecidableEq

/-- `GateDecision` from `gate.ts`. -/
inductive GateDecision
  | allow
  | deny (reason : GateReason)
deriving DecidableEq

/-- `GateInput` from `gate.ts` (`now_ms` made mandatory: the `Date.now()`
default is just the caller-supplied clock). -/
structure GateInput where
  camera_id : String
  track_id : String
  judge_confidence_0_1 : ℚ
  now_ms : ℚ

/-- `alertGate` from `lib/grocery-shoplift/gate.ts`, with the module-level maps
made an explicit state argument.  Returns the decision together with the state
after the call. -/
def alertGate (cfg : GateConfig) (st : GateState) (input : GateInput) :
    GateDecision × GateState :=
  let now := input.now_ms
  if input.judge_confidence_0_1 < cfg.judgeMinConfidence then
    (.deny .below_confidence, st)
  else
    let camCooldownMs := cfg.cameraCooldownSeconds * 1000
    let trackCooldownMs := cfg.trackCooldownSeconds * 1000
    let camBlocked : Bool :=
      (st.lastTriggerByCamera input.camera_id).elim false
        (fun lastCam => decide (now - lastCam < camCooldownMs))
    if camBlocked then (.deny .camera_cooldown, st)
    else
      let trackBlocked : Bool :=
        (st.lastTriggerByTrack input.track_id).elim false
          (fun lastTrack => decide (now - lastTrack < trackCooldownMs))
      if trackBlocked then (.deny .track_cooldown, st)
      else
        (.allow,
          { lastTriggerByCamera := fun k =>
              if k = input.camera_id then some now else st.lastTriggerByCamera k,
            lastTriggerByTrack := fun k =>
              if k = input.track_id then some now else st.lastTriggerByTrack k })

/- ## `lib/grocery-shoplift/tracking.ts` — person tracker -/

/-- `Bbox` from `lib/grocery-shoplift/types`. -/
structure Bbox where
  x1 : ℚ
  y1 : ℚ
  x2 : ℚ
  y2 : ℚ
deriving DecidableEq

/-- `PersonDetection`: one per-frame detection. -/
structure PersonDetection where
  bbox : Bbox
  confidence : ℚ
deriving DecidableEq

/-- `TrackedPerson`, field order as in the object literal of `updateTracks`. -/
structure TrackedPerson where
  track_id : String
  bbox : Bbox
  confidence : ℚ
  bbox_history : List Bbox
  last_seen : ℚ
  first_seen : ℚ
deriving DecidableEq

/-- `iou` from `tracking.ts`: intersection over union of two boxes. -/
def iou (a b : Bbox) : ℚ :=
  let xi1 := max a.x1 b.x1
  let yi1 := max a.y1 b.y1
  let xi2 := min a.x2 b.x2
  let yi2 := min a.y2 b.y2
  let interW := max 0 (xi2 - xi1)
  let interH := max 0 (yi2 - yi1)
  let inter := interW * interH
  let areaA := (a.x2 - a.x1) * (a.y2 - a.y1)
  let areaB := (b.x2 - b.x1) * (b.y2 - b.y1)
  let union := areaA + areaB - inter
  if union ≤ 0 then 0 else inter / union

/-- `IOU_THRESHOLD` from `tracking.ts`. -/
def IOU_THRESHOLD : ℚ := 3/10

/-- `MAX_BBOX_HISTORY` from `tracking.ts`. -/
def MAX_BBOX_HISTORY : ℕ := 10

/-- JavaScript `arr.slice(-n)`: the last `min n arr.length` elements. -/
def sliceLast {α : Type} (n : ℕ) (l : List α) : List α :=
  l.drop (l.length - n)

/-- The tracker's module state: the insertion-ordered `activeTracks` map
(`Map<string, TrackedPerson>`, keyed by `track_id`) and the `nextTrackId`
counter. -/
structure TrackerState where
  activeTracks : List TrackedPerson
  nextTrackId : ℕ
deriving DecidableEq

/-- The state produced by `resetTracks()`. -/
def initialTrackerState : TrackerState := { activeTracks := [], nextTrackId := 1 }

/-- `Map.set` on the insertion-ordered track store: replace in place when the
key exists, append otherwise. -/
def mapSet (tracks : List TrackedPerson) (t : TrackedPerson) : List TrackedPerson :=
  if tracks.any (fun u => u.track_id = t.track_id) then
    tracks.map (fun u => if u.track_id = t.track_id then t else u)
  else tracks ++ [t]

/-- Body of the inner matching loop of `updateTracks`: starting from the
accumulator `(bestIou, bestTrack)`, consider one active track (skipping tracks
already matched this frame) and keep it when its IOU strictly exceeds the
accumulator's. -/
def matchFold (matched : List String) (det : Bbox) (acc : ℚ × Option TrackedPerson)
    (track : TrackedPerson) : ℚ × Option TrackedPerson :=
  if track.track_id ∈ matched then acc
  else
    let score := iou track.bbox det
    if acc.1 < score then (score, some track) else acc

/-- The inner loop of `updateTracks`: greedy best-IOU search over the active
tracks starting at threshold `IOU_THRESHOLD` (`0.3`) with no candidate. -/
def bestMatch (tracks : List TrackedPerson) (matched : List String) (det : Bbox) :
    ℚ × Option TrackedPerson :=
  tracks.foldl (matchFold matched det) (IOU_THRESHOLD, none)

/-- One iteration of the outer loop of `updateTracks`: process one detection
against `(state, matched, result)`. -/
def stepDet (nowMs : ℚ) (acc : TrackerState × List String × List TrackedPerson)
    (det : PersonDetection) : TrackerState × List String × List TrackedPerson :=
  let st := acc.1
  let matched := acc.2.1
  let result := acc.2.2
  match (bestMatch st.activeTracks matched det.bbox).2 with
  | some bestTrack =>
      let history := sliceLast MAX_BBOX_HISTORY (bestTrack.bbox_history ++ [det.bbox])
      let updated : TrackedPerson :=
        { track_id := bestTrack.track_id, bbox := det.bbox, confidence := det.confidence,
          bbox_history := history, last_seen := nowMs, first_seen := bestTrack.first_seen }
      ({ activeTracks := mapSet st.activeTracks updated, nextTrackId := st.nextTrackId },
       matched ++ [bestTrack.track_id], result ++ [updated])
  | none =>
      let trackId := "t" ++ toString st.nextTrackId
      let newTrack : TrackedPerson :=
        { track_id := trackId, bbox := det.bbox, confidence := det.confidence,
          bbox_history := [det.bbox], last_seen := nowMs, first_seen := nowMs }
      ({ activeTracks := st.activeTracks ++ [newTrack], nextTrackId := st.nextTrackId + 1 },
       matched, result ++ [newTrack])

/-- `updateTracks` from `tracking.ts`, with the module state explicit: returns
the per-frame list of updated track views together with the new state. -/
def updateTracks (st : TrackerState) (detections : List PersonDetection) (nowMs : ℚ) :
    List TrackedPerson × TrackerState :=
  let r := detections.foldl (stepDet nowMs) (st, [], [])
  (r.2.2, r.1)

/-- The track view built in the matched branch of `updateTracks`: existing id
and `first_seen` preserved, bbox appended (keeping the last 10),
bbox/confidence/last_seen replaced. -/
def updatedTrack (t : TrackedPerson) (det : PersonDetection) (nowMs : ℚ) : TrackedPerson :=
  { track_id := t.track_id, bbox := det.bbox, confidence := det.confidence,
    bbox_history := sliceLast MAX_BBOX_HISTORY (t.bbox_history ++ [det.bbox]),
    last_seen := nowMs, first_seen := t.first_seen }

/-- Detection D1's box for the C4 scenario. -/
def D1bbox : Bbox := ⟨0, 0, 3, 1⟩

/-- Detection D2's box for the C4 scenario; IOU(D1, D2) = 2/4 = 0.5. -/
def D2bbox : Bbox := ⟨1, 0, 4, 1⟩

/-- Detection D1 of the C4 scenario (frame 1). -/
def D1det : PersonDetection := ⟨D1bbox, 9/10⟩

/-- Detection D2 of the C4 scenario (frame 2). -/
def D2det : PersonDetection := ⟨D2bbox, 4/5⟩

/-- Tracker state after frame 1 of the C4 scenario: D1 created track "t1". -/
def frame1State : TrackerState :=
  (updateTracks initialTrackerState [D1det] 1000).2

/-- The track minted for D1 in frame 1 of the C4 scenario. -/
def T1track : TrackedPerson :=
  { track_id := "t" ++ toString 1, bbox := D1bbox, confidence := 9/10,
    bbox_history := [D1bbox], last_seen := 1000, first_seen := 1000 }

/-- Decidable form of the bbox-history invariant: every track in the store has
at most `MAX_BBOX_HISTORY` (10) entries of history. -/
def histBoundB (tracks : List TrackedPerson) : Bool :=
  tracks.all (fun t => decide (t.bbox_history.length ≤ MAX_BBOX_HISTORY))

/-- Unit box for the C9 witness. -/
def c9Box : Bbox := ⟨0, 0, 1, 1⟩

/-- A store holding one track with a full (length-10) history, for the C9
witness. -/
def c9State : TrackerState :=
  { activeTracks := [⟨"t1", c9Box, 1, List.replicate 10 c9Box, 0, 0⟩], nextTrackId := 2 }

/- ## `lib/grocery-shoplift/suspicion.ts` — suspicion engine -/

/-- `Point` with normalized coordinates. -/
structure Point where
  x : ℚ
  y : ℚ
deriving DecidableEq

/-- `ZoneConfig`: a polygon zone with a semantic type; `enabled` is optional
in the source (only `enabled === false` disables a zone). -/
structure ZoneConfig where
  id : String
  name : String
  type : String
  polygon : List Point
  riskMultiplier : ℚ
  enabled : Option Bool
deriving DecidableEq

/-- `ZoneVisit`: one record of the caller-maintained per-track zone history. -/
structure ZoneVisit where
  zone_id : String
  zone_type : String
  entered_ms : ℚ
deriving DecidableEq

/-- `SuspicionInput` as consumed by `computeSuspicion`. -/
structure SuspicionInput where
  track : TrackedPerson
  zones : List ZoneConfig
  zone_history : List ZoneVisit
  now_ms : ℚ

/-- The entries pushed onto the `reasons` array by `computeSuspicion`.  The
dwell reason's formatted-seconds suffix (`toFixed(0)` in the source) is
abstracted as the raw rational payload. -/
inductive Reason
  | exit_without_checkout
  | dwell_high_theft (sec : ℚ)
  | torso_ratio_spike
deriving DecidableEq

/-- `SuspicionResult` from `suspicion.ts`. -/
structure SuspicionResult where
  suspicion_score : ℚ
  reasons : List Reason
  exit_without_checkout : Bool
  dwell_high_theft_sec : ℚ
  torso_ratio_spike : Bool
deriving DecidableEq

/-- The environment-resolved configuration of `suspicion.ts`; defaults 70, 12
and 60. -/
structure SuspicionConfig where
  escalateScore : ℚ
  dwellSeconds : ℚ
  checkoutMemorySeconds : ℚ

/-- The documented default suspicion configuration. -/
def defaultSuspicionConfig : SuspicionConfig :=
  { escalateScore := 70, dwellSeconds := 12, checkoutMemorySeconds := 60 }

/-- `EXIT_WITHOUT_CHECKOUT_BONUS` from `suspicion.ts`. -/
def EXIT_WITHOUT_CHECKOUT_BONUS : ℚ := 40

/-- `DWELL_HIGH_THEFT_BONUS` from `suspicion.ts`. -/
def DWELL_HIGH_THEFT_BONUS : ℚ := 25

/-- `TORSO_RATIO_SPIKE_BONUS` from `suspicion.ts`. -/
def TORSO_RATIO_SPIKE_BONUS : ℚ := 20

/-- `TORSO_RATIO_WINDOW` from `suspicion.ts` (last N bboxes). -/
def TORSO_RATIO_WINDOW : ℕ := 5

/-- The spike threshold constant of `suspicion.ts` (0.25 change in w/h). -/
def torsoSpikeRatio : ℚ := 1/4

/-- `isPointInPolygon` from `suspicion.ts`: ray casting; polygons with fewer
than 3 vertices contain nothing.  The source pairs vertex `i` with vertex
`j = i - 1 mod n`, i.e. edges `(p0, p_last), (p1, p0), …`. -/
def isPointInPolygon (p : Point) (polygon : List Point) : Bool :=
  if polygon.length < 3 then false
  else
    let edges := polygon.zip (polygon.getLastD ⟨0, 0⟩ :: polygon.dropLast)
    edges.foldl
      (fun inside pq =>
        if (decide (pq.1.y > p.y) != decide (pq.2.y > p.y)) &&
            decide (p.x < (pq.2.x - pq.1.x) * (p.y - pq.1.y) / (pq.2.y - pq.1.y) + pq.1.x)
        then !inside else inside)
      false

/-- `whichZone` from `suspicion.ts`: the first enabled zone whose polygon
contains the point. -/
def whichZone (point : Point) (zones : List ZoneConfig) : Option ZoneConfig :=
  zones.find? (fun z => !decide (z.enabled = some false) && isPointInPolygon point z.polygon)

/-- `bboxCenter` from `tracking.ts` (normalizing only when both frame
dimensions are supplied, as `frameWidth != null && frameHeight != null`). -/
def bboxCenter (box : Bbox) (frameWidth frameHeight : Option ℚ) : Point :=
  let x := (box.x1 + box.x2) / 2
  let y := (box.y1 + box.y2) / 2
  match frameWidth, frameHeight with
  | some w, some h => ⟨x / w, y / h⟩
  | _, _ => ⟨x, y⟩

/-- `bboxTorsoRatio` from `tracking.ts`: width/height, 0 for a non-positive
height. -/
def bboxTorsoRatio (box : Bbox) : ℚ :=
  if box.y2 - box.y1 ≤ 0 then 0 else (box.x2 - box.x1) / (box.y2 - box.y1)

/-- JavaScript `Math.round`: half-up rounding (toward `+∞` at `.5`). -/
def jsRound (q : ℚ) : ℤ := ⌊q + 1/2⌋

/-- The dwell accumulation loop of `computeSuspicion`: over history records of
type `"high_theft"` whose `zone_id` resolves to an enabled `"high_theft"` zone
in the provided config, sum `(now − entered_ms)` in seconds. -/
def dwellSumConfigured (input : SuspicionInput) : ℚ :=
  let highTheftZones :=
    input.zones.filter (fun z => decide (z.type = "high_theft") && !decide (z.enabled = some false))
  input.zone_history.foldl
    (fun acc h =>
      if h.zone_type = "high_theft" then
        if (highTheftZones.find? (fun z => decide (z.id = h.zone_id))).isSome then
          acc + (input.now_ms - h.entered_ms) / 1000
        else acc
      else acc)
    0

/-- The dwell sum as claim C5 states it (spec reading): over **all** history
records of type `"high_theft"`, regardless of the provided zone config. -/
def dwellSumAllHighTheft (input : SuspicionInput) : ℚ :=
  input.zone_history.foldl
    (fun acc h =>
      if h.zone_type = "high_theft" then acc + (input.now_ms - h.entered_ms) / 1000
      else acc)
    0

/-- The exit-without-checkout trigger of `computeSuspicion`: the classified
zone's id must equal the id of the **first** enabled `"exit"` zone
(`currentZone?.id === exitZone.id` in the source), and no `"checkout"` visit
may fall within the memory window. -/
def exitFlag (cfg : SuspicionConfig) (input : SuspicionInput)
    (frameWidth frameHeight : Option ℚ) : Bool :=
  let center := bboxCenter input.track.bbox frameWidth frameHeight
  let currentZone := whichZone center input.zones
  let exitZone :=
    input.zones.find? (fun z => decide (z.type = "exit") && !decide (z.enabled = some false))
  match exitZone, currentZone with
  | some ez, some cz =>
      if cz.id = ez.id then
        !(input.zone_history.any (fun h =>
            decide (h.zone_type = "checkout") &&
            decide (h.entered_ms ≥ input.now_ms - cfg.checkoutMemorySeconds * 1000)))
      else false
  | _, _ => false

/-- The torso-ratio-spike trigger of `computeSuspicion`: once the history has
at least 5 samples, the last 5 aspect ratios are taken and the last one must
deviate from their mean by at least 0.25. -/
def torsoSpikeFlag (input : SuspicionInput) : Bool :=
  if TORSO_RATIO_WINDOW ≤ input.track.bbox_history.length then
    let ratios := (sliceLast TORSO_RATIO_WINDOW input.track.bbox_history).map bboxTorsoRatio
    let mean := ratios.foldl (· + ·) 0 / (ratios.length : ℚ)
    decide (|ratios.getLastD 0 - mean| ≥ torsoSpikeRatio)
  else false

/-- `computeSuspicion` from `suspicion.ts`: additive scoring over the three
triggers, clamped to 100; the returned dwell seconds are rounded to one
decimal (`Math.round(x*10)/10`). -/
def computeSuspicion (cfg : SuspicionConfig) (input : SuspicionInput)
    (frameWidth frameHeight : Option ℚ) : SuspicionResult :=
  let ewc : Bool := exitFlag cfg input frameWidth frameHeight
  let score1 : ℚ := if ewc then EXIT_WITHOUT_CHECKOUT_BONUS else 0
  let reasons1 : List Reason := if ewc then [.exit_without_checkout] else []
  let dwell := dwellSumConfigured input
  let score2 : ℚ := if dwell ≥ cfg.dwellSeconds then score1 + DWELL_HIGH_THEFT_BONUS else score1
  let reasons2 :=
    if dwell ≥ cfg.dwellSeconds then reasons1 ++ [.dwell_high_theft dwell] else reasons1
  let spike : Bool := torsoSpikeFlag input
  let score3 : ℚ := if spike = true then score2 + TORSO_RATIO_SPIKE_BONUS else score2
  let reasons3 := if spike = true then reasons2 ++ [.torso_ratio_spike] else reasons2
  { suspicion_score := min 100 score3,
    reasons := reasons3,
    exit_without_checkout := ewc,
    dwell_high_theft_sec := (jsRound (dwell * 10) : ℚ) / 10,
    torso_ratio_spike := spike }

/-- A far-away exit zone (declared first) for the C2 counterexample. -/
def exitZoneA : ZoneConfig :=
  { id := "exitA", name := "Exit A", type := "exit",
    polygon := [⟨10, 10⟩, ⟨11, 10⟩, ⟨11, 11⟩, ⟨10, 11⟩], riskMultiplier := 1, enabled := none }

/-- A unit-square exit zone at the origin for the C2 counterexample. -/
def exitZoneB : ZoneConfig :=
  { id := "exitB", name := "Exit B", type := "exit",
    polygon := [⟨0, 0⟩, ⟨1, 0⟩, ⟨1, 1⟩, ⟨0, 1⟩], riskMultiplier := 1, enabled := none }

/-- A track whose bbox center is (0.5, 0.5). -/
def c2Track : TrackedPerson :=
  { track_id := "t1", bbox := ⟨2/5, 2/5, 3/5, 3/5⟩, confidence := 9/10,
    bbox_history := [⟨2/5, 2/5, 3/5, 3/5⟩], last_seen := 0, first_seen := 0 }

/-- C2 counterexample input: two enabled exit zones; the center lies in the
second one; the zone-visit history is empty. -/
def c2CexInput : SuspicionInput :=
  { track := c2Track, zones := [exitZoneA, exitZoneB], zone_history := [], now_ms := 100000 }

/-- C2 witness input: a single enabled exit zone containing the center. -/
def c2WitnessInput : SuspicionInput :=
  { track := c2Track, zones := [exitZoneB], zone_history := [], now_ms := 100000 }

/-- C5 counterexample input: a high-theft visit 20 s ago, but the zone config
lists no high-theft zone at all. -/
def c5CexInput : SuspicionInput :=
  { track := c2Track, zones := [], zone_history := [⟨"h1", "high_theft", 80000⟩],
    now_ms := 100000 }

/-- First event of the C1 scenario: camera "cam-1", confidence 0.9, t = 0. -/
def c1Event1 : GateInput :=
  { camera_id := "cam-1", track_id := "trk-1", judge_confidence_0_1 := 9/10, now_ms := 0 }

/-- Second event of the C1 scenario: same camera, 5 s after the first. -/
def c1Event2 : GateInput :=
  { camera_id := "cam-1", track_id := "trk-2", judge_confidence_0_1 := 9/10, now_ms := 5000 }

/-- Third event of the C1 scenario: same camera, 25 s after the first. -/
def c1Event3 : GateInput :=
  { camera_id := "cam-1", track_id := "trk-3", judge_confidence_0_1 := 9/10, now_ms := 25000 }

/-- Input used to witness C10: confidence 0.5 is below the default 0.7. -/
def c10Input : GateInput :=
  { camera_id := "cam-9", track_id := "trk-9", judge_confidence_0_1 := 1/2, now_ms := 0 }

/- ## Concealment judge — `LocalFallbackJudge.judge` -/

/-- `ConcealmentJudgeInput` from the judge strategy module. -/
structure ConcealmentJudgeInput where
  framePaths : List String
  location : String
  cameraId : String
  suspicionScore : ℚ
  suspicionReasons : List String
  exitWithoutCheckout : Bool
  torsoRatioSpike : Bool

/-- `JudgeResult` returned by every judge strategy. -/
structure JudgeResult where
  concealment_likely : Bool
  confidence_0_1 : ℚ
  evidence : List String
  risk_of_false_positive : List String
  recommended_action : String
deriving DecidableEq

/-- `LocalFallbackJudge.judge`: the deterministic rule-based local judge.  The
source method is `async` but performs no awaits and never rejects, so it is a
pure function of its input. -/
def LocalFallbackJudge.judge (input : ConcealmentJudgeInput) : JudgeResult :=
  let concealment_likely := input.exitWithoutCheckout || input.torsoRatioSpike
  let confidence_0_1 : ℚ := if concealment_likely then 7/10 else 2/10
  let evidence :=
    (if input.exitWithoutCheckout then ["exit_without_checkout"] else []) ++
    (if input.torsoRatioSpike then ["torso_ratio_spike"] else [])
  { concealment_likely := concealment_likely,
    confidence_0_1 := confidence_0_1,
    evidence := evidence,
    risk_of_false_positive := ["rule-based heuristic; no visual analysis"],
    recommended_action :=
      if concealment_likely && decide (confidence_0_1 ≥ 7/10) then "alert" else "log_only" }

/- ## Voice alert — `LocalVoiceAlert.play` -/

/-- A thrown JavaScript value: an `Error` carrying a message, or any other
value. -/
inductive JsError
  | error (message : String)
  | nonError
deriving DecidableEq

/-- `e instanceof Error ? e.message : String(e)` — the error text recorded in
a `VoiceAlertResult`. -/
def jsErrorText : JsError → String
  | .error msg => msg
  | .nonError => "[thrown value]"

/-- `process.platform`, as far as `LocalVoiceAlert.play` branches on it. -/
inductive Platform
  | darwin
  | linux
  | other
deriving DecidableEq

/-- Oracle for the IO performed by `LocalVoiceAlert.play`: whether directory
creation, the WAV write, and the `say` / `espeak` spawns succeed.  The claim's
"local directory/file IO succeeds" assumption is `mkdirOk ∧ writeFileOk`. -/
structure VoiceWorld where
  platform : Platform
  mkdirOk : Bool
  writeFileOk : Bool
  sayOk : Bool
  espeakOk : Bool

/-- `VoiceAlertResult` from the voice strategy module. -/
structure VoiceAlertResult where
  success : Bool
  audioPath : Option String
  voiceUsed : String
  error : Option String
deriving DecidableEq

/-- `writeBeepWav`: `mkdir` then write the synthesized WAV; either IO step may
throw.  (The WAV byte construction itself is pure and cannot fail.) -/
def writeBeepWav (w : VoiceWorld) (dir fileName : String) : Except JsError String :=
  if w.mkdirOk then
    if w.writeFileOk then .ok (dir ++ "/" ++ fileName)
    else .error (.error "write failed")
  else .error (.error "mkdir failed")

/-- `LocalVoiceAlert.play`: on darwin try `say` (mkdir + spawn), on linux try
`espeak` inside an inner try whose failure falls through to the beep; any
exception escaping the body is caught and answered with a beep; only a failing
beep write propagates.  File-name sanitization of the camera id is abstracted;
`ts` stands for the formatted timestamp.  Never consults any credential. -/
def LocalVoiceAlert.play (w : VoiceWorld) (location cameraId ts : String) :
    Except JsError VoiceAlertResult :=
  let dir := "alerts/audio"
  let wavName := ts ++ "_" ++ cameraId ++ "_local.wav"
  let beepName := ts ++ "_" ++ cameraId ++ "_beep.wav"
  let tryBody : Except JsError VoiceAlertResult :=
    match w.platform with
    | .darwin =>
        if w.mkdirOk then
          if w.sayOk then .ok ⟨true, some (dir ++ "/" ++ wavName), "local", none⟩
          else .error (.error "say exited 1")
        else .error (.error "mkdir failed")
    | .linux =>
        if w.mkdirOk && w.espeakOk then
          .ok ⟨true, some (dir ++ "/" ++ wavName), "local", none⟩
        else
          (writeBeepWav w dir beepName).map (fun p => ⟨true, some p, "local", none⟩)
    | .other =>
        (writeBeepWav w dir beepName).map (fun p => ⟨true, some p, "local", none⟩)
  match tryBody with
  | .ok r => .ok r
  | .error e =>
      (writeBeepWav w dir beepName).map
        (fun p => ⟨true, some p, "local", some (jsErrorText e)⟩)

/-- The voice world of the C7 witness: linux, healthy file IO, no `espeak`
available and no `say`. -/
def c7World : VoiceWorld :=
  { platform := .linux, mkdirOk := true, writeFileOk := true, sayOk := false,
    espeakOk := false }

/- ## `lib/shoplift-alerts/alert-gate.ts` and the pipeline orchestrator -/

/-- `ShopliftingEvent`, restricted to the fields the gate and pipeline read. -/
structure ShopliftingEvent where
  camera_id : String
  location : String
  confidence : ℚ

/-- Environment-resolved configuration of `alert-gate.ts`; defaults 0.75,
20 s, count 2, window 1000 ms. -/
structure SAConfig where
  minConfidence : ℚ
  cooldownSeconds : ℚ
  persistenceCount : ℚ
  persistenceWindowMs : ℚ

/-- The documented defaults of `alert-gate.ts`. -/
def defaultSAConfig : SAConfig :=
  { minConfidence := 3/4, cooldownSeconds := 20, persistenceCount := 2,
    persistenceWindowMs := 1000 }

/-- The two module-level maps of `alert-gate.ts`. -/
structure SAState where
  lastTriggerByCamera : String → Option ℚ
  recentEventsByCamera : String → Option (List ℚ)

/-- The state produced by `resetAlertGate()`. -/
def emptySAState : SAState :=
  { lastTriggerByCamera := fun _ => none, recentEventsByCamera := fun _ => none }

/-- Rejection reasons of `alert-gate.ts`'s `GateResult`. -/
inductive SAReason
  | below_threshold
  | cooldown
  | persistence_not_met
deriving DecidableEq

/-- The literal reason string carried by a `GateResult`. -/
def SAReason.text : SAReason → String
  | .below_threshold => "below_threshold"
  | .cooldown => "cooldown"
  | .persistence_not_met => "persistence_not_met"

/-- `alertGate` from `lib/shoplift-alerts/alert-gate.ts` (confidence →
cooldown → persistence), with the module maps explicit; `none` means the event
is allowed. -/
def saAlertGate (cfg : SAConfig) (st : SAState) (event : ShopliftingEvent) (nowMs : ℚ) :
    Option SAReason × SAState :=
  if event.confidence < cfg.minConfidence then (some .below_threshold, st)
  else
    let camBlocked : Bool :=
      (st.lastTriggerByCamera event.camera_id).elim false
        (fun last => decide (nowMs - last < cfg.cooldownSeconds * 1000))
    if camBlocked then (some .cooldown, st)
    else
      if cfg.persistenceCount > 1 ∧ cfg.persistenceWindowMs > 0 then
        let recent := (st.recentEventsByCamera event.camera_id).getD []
        let windowStart := nowMs - cfg.persistenceWindowMs
        let inWindow := recent.filter (fun t => decide (t ≥ windowStart)) ++ [nowMs]
        let st' : SAState :=
          { st with recentEventsByCamera := fun k =>
              if k = event.camera_id then some (sliceLast 10 inWindow)
              else st.recentEventsByCamera k }
        if (inWindow.length : ℚ) < cfg.persistenceCount then (some .persistence_not_met, st')
        else
          (none,
            { st' with lastTriggerByCamera := fun k =>
                if k = event.camera_id then some nowMs else st.lastTriggerByCamera k })
      else
        (none,
          { st with lastTriggerByCamera := fun k =>
              if k = event.camera_id then some nowMs else st.lastTriggerByCamera k })

/-- Outcome of `generateAlertAudio` (the MiniMax TTS step). -/
structure MiniMaxOutcome where
  audioPath : Option String
  fallbackUsed : Option Bool

/-- Outcome of `voice.play` as the pipeline reads it. -/
structure VoicePlayOutcome where
  audioPath : Option String
  voiceUsed : String

/-- Oracles for the awaited, fallible steps of `runShopliftAlertPipeline`:
whether MiniMax TTS is enabled (key + flag), what the MiniMax step does, and
what the local voice strategy's `play` does.  Log writes and playback are
individually `.catch`-ed in the source, so their failures never influence the
returned value; module imports are modeled as succeeding. -/
structure PipelineEnv where
  useMiniMax : Bool
  minimaxStep : Except JsError MiniMaxOutcome
  voicePlay : Except JsError VoicePlayOutcome

/-- An attempted incident-log write (`logSuppressed` / `logTriggered`). -/
inductive LogAttempt
  | suppressed (reason : String)
  | triggered
deriving DecidableEq

/-- `PipelineResult` from the pipeline module. -/
structure PipelineResult where
  triggered : Bool
  reason : Option String
  audioPath : Option String
  fallbackUsed : Option Bool
deriving DecidableEq

/-- The reason recorded by the orchestrator's catch-all:
`e instanceof Error ? e.message : "pipeline_error"`. -/
def jsCatchReason : JsError → String
  | .error msg => msg
  | .nonError => "pipeline_error"

/-- The MiniMax branch of the pipeline: audio path and fallback flag when the
step is enabled, returns a path, and does not throw (a throw is caught locally
and falls through to the local voice). -/
def mmAudio (env : PipelineEnv) : Option (String × Bool) :=
  if env.useMiniMax then
    match env.minimaxStep with
    | .ok o =>
        match o.audioPath with
        | some p => some (p, o.fallbackUsed.getD false)
        | none => none
    | .error _ => none
  else none

/-- `runShopliftAlertPipeline`: gate → (MiniMax | local voice) → log →
playback, with the outer catch-all producing a structured
`{triggered:false, reason:"pipeline_error"}` failure and attempting a
suppressed log record with the error's message (or `"pipeline_error"` for a
non-`Error` throw).  Returns the result, the gate state after the call, and
the attempted log records. -/
def runShopliftAlertPipeline (cfg : SAConfig) (st : SAState) (env : PipelineEnv)
    (event : ShopliftingEvent) (nowMs : ℚ) :
    PipelineResult × SAState × List LogAttempt :=
  let g := saAlertGate cfg st event nowMs
  match g.1 with
  | some r =>
      (⟨false, some r.text, none, none⟩, g.2, [.suppressed r.text])
  | none =>
      match mmAudio env with
      | some pfb => (⟨true, none, some pfb.1, some pfb.2⟩, g.2, [.triggered])
      | none =>
          match env.voicePlay with
          | .error e =>
              (⟨false, some "pipeline_error", none, none⟩, g.2,
               [.suppressed (jsCatchReason e)])
          | .ok v =>
              match v.audioPath with
              | none =>
                  (⟨false, some "voice_failed", none, none⟩, g.2,
                   [.suppressed "voice_failed"])
              | some p =>
                  (⟨true, none, some p, some (decide (v.voiceUsed = "local"))⟩, g.2,
                   [.triggered])

/-- Gate configuration for the C3 scenario: persistence disabled (count 1). -/
def c3Config : SAConfig :=
  { minConfidence := 3/4, cooldownSeconds := 20, persistenceCount := 1,
    persistenceWindowMs := 1000 }

/-- Pipeline environment for the C3 scenario: MiniMax disabled, and the local
voice step throwing an `Error` with message "disk full". -/
def c3Env : PipelineEnv :=
  { useMiniMax := false, minimaxStep := .error .nonError,
    voicePlay := .error (.error "disk full") }

/-- The event of the C3 scenario. -/
def c3Event : ShopliftingEvent :=
  { camera_id := "cam-1", location := "Aisle 3", confidence := 9/10 }

/-- C1: under the default configuration and starting from the reset (empty)
gate state, a first event for camera "cam-1" at confidence 0.9 is admitted; a
second event for "cam-1" 5 seconds later is rejected with the camera-cooldown
reason; and a further event for "cam-1" 25 seconds after the first is admitted
again.  (The three events carry distinct track ids, as three sightings of
different tracked persons; the claim constrains only the camera.) -/
theorem C1_gate_cooldown_scenario :
    (alertGate defaultGateConfig emptyGateState c1Event1).1 = .allow ∧
    (alertGate defaultGateConfig
        (alertGate defaultGateConfig emptyGateState c1Event1).2 c1Event2).1 =
      .deny .camera_cooldown ∧
    (alertGate defaultGateConfig
        (alertGate defaultGateConfig
          (alertGate defaultGateConfig emptyGateState c1Event1).2 c1Event2).2
        c1Event3).1 = .allow := by
  norm_num [alertGate, defaultGateConfig, emptyGateState, c1Event1, c1Event2, c1Event3,
    (show ("trk-2" = "trk-1") = False by simp), (show ("trk-3" = "trk-1") = False by simp)]

/-- C10: whenever `alertGate` rejects (for any reason), the stored cooldown
maps are returned unchanged; the last-trigger timestamps are updated only on an
admit decision. -/
theorem C10_gate_reject_frame (cfg : GateConfig) (st : GateState) (input : GateInput)
    (r : GateReason) (h : (alertGate cfg st input).1 = .deny r) :
    (alertGate cfg st input).2 = st := by
  revert h
  simp only [alertGate]
  split
  · intro _; rfl
  · split
    · intro _; rfl
    · split
      · intro _; rfl
      · intro h; exact absurd h (by simp)

/-- Witness for C10 at a concrete input: confidence 0.5 against the default
minimum 0.7 is rejected with `below_confidence`, and the state is unchanged. -/
theorem C10_gate_reject_frame_witness :
    (alertGate defaultGateConfig emptyGateState c10Input).1 = .deny .below_confidence ∧
    (alertGate defaultGateConfig emptyGateState c10Input).2 = emptyGateState :=
  ⟨by norm_num [alertGate, defaultGateConfig, emptyGateState, c10Input],
   C10_gate_reject_frame defaultGateConfig emptyGateState c10Input
    .below_confidence (by norm_num [alertGate, defaultGateConfig, emptyGateState, c10Input])⟩

/-- The greedy search of `updateTracks` only ever yields a candidate that is an
active track, unmatched this frame, whose IOU with the detection strictly
exceeds the accumulator's starting threshold. -/
theorem matchFold_invariant (matched : List String) (det : Bbox) :
    ∀ (tracks : List TrackedPerson) (init : ℚ × Option TrackedPerson),
      IOU_THRESHOLD ≤ init.1 →
      IOU_THRESHOLD ≤ (tracks.foldl (matchFold matched det) init).1 ∧
      ∀ t, (tracks.foldl (matchFold matched det) init).2 = some t →
        init.2 = some t ∨
          (t ∈ tracks ∧ t.track_id ∉ matched ∧
            IOU_THRESHOLD < iou t.bbox det) := by
  intro tracks
  induction tracks with
  | nil => intro init h; exact ⟨h, fun t ht => Or.inl ht⟩
  | cons track rest ih =>
      intro init h
      rw [List.foldl_cons]
      have hstep : IOU_THRESHOLD ≤ (matchFold matched det init track).1 ∧
          ((matchFold matched det init track).2 = init.2 ∨
            ((matchFold matched det init track).2 = some track ∧
              track.track_id ∉ matched ∧
              IOU_THRESHOLD < iou track.bbox det)) := by
        unfold matchFold
        by_cases hm : track.track_id ∈ matched
        · rw [if_pos hm]
          exact ⟨h, Or.inl rfl⟩
        · rw [if_neg hm]
          by_cases hlt : init.1 < iou track.bbox det
          · rw [if_pos hlt]
            exact ⟨le_of_lt (lt_of_le_of_lt h hlt),
              Or.inr ⟨rfl, hm, lt_of_le_of_lt h hlt⟩⟩
          · rw [if_neg hlt]
            exact ⟨h, Or.inl rfl⟩
      obtain ⟨h1, h2⟩ := hstep
      obtain ⟨ih1, ih2⟩ := ih (matchFold matched det init track) h1
      refine ⟨ih1, fun t ht => ?_⟩
      rcases ih2 t ht with hinit | ⟨hmem, hnc, hiou⟩
      · rcases h2 with heq | ⟨heq, hnc, hiou⟩
        · exact Or.inl (heq.symm.trans hinit)
        · obtain rfl := Option.some.inj (heq.symm.trans hinit)
          exact Or.inr ⟨List.mem_cons_self _ _, hnc, hiou⟩
      · exact Or.inr ⟨List.mem_cons_of_mem _ hmem, hnc, hiou⟩

/-- C4: when the greedy search finds a best unmatched active track for a
detection (IOU strictly above 0.3), the detection is assigned that track's
existing `track_id` with `first_seen` preserved; the bbox is appended to the
history (bounded slice of the last 10), bbox/confidence/last_seen are updated,
and `nextTrackId` is untouched — no new id is minted. -/
theorem C4_matched_detection_keeps_id (st : TrackerState) (matched : List String)
    (result : List TrackedPerson) (det : PersonDetection) (nowMs : ℚ) (t : TrackedPerson)
    (h : (bestMatch st.activeTracks matched det.bbox).2 = some t) :
    (t ∈ st.activeTracks ∧ t.track_id ∉ matched ∧
      IOU_THRESHOLD < iou t.bbox det.bbox) ∧
    stepDet nowMs (st, matched, result) det =
      ({ activeTracks := mapSet st.activeTracks (updatedTrack t det nowMs),
          nextTrackId := st.nextTrackId },
        matched ++ [t.track_id],
        result ++ [updatedTrack t det nowMs]) := by
  constructor
  · have hinv := (matchFold_invariant matched det.bbox st.activeTracks
      (IOU_THRESHOLD, none) le_rfl).2 t h
    rcases hinv with hnone | hgood
    · exact absurd hnone (by simp)
    · exact hgood
  · simp only [stepDet, bestMatch] at h ⊢
    rw [h]
    rfl

/-- Witness for C4 at the scenario of the claim: frame 1 creates T1 from D1;
in frame 2 detection D2 has IOU 0.5 > 0.3 with T1's box, the greedy search
returns T1, and the processed detection carries T1's track id and first_seen
(no new id is minted). -/
theorem C4_matched_detection_keeps_id_witness :
    (bestMatch frame1State.activeTracks [] D2bbox).2 = some T1track ∧
    stepDet 2000 (frame1State, [], []) D2det =
      ({ activeTracks := mapSet frame1State.activeTracks (updatedTrack T1track D2det 2000),
          nextTrackId := frame1State.nextTrackId },
        [] ++ [T1track.track_id],
        [] ++ [updatedTrack T1track D2det 2000]) :=
  ⟨by norm_num [bestMatch, matchFold, frame1State, updateTracks, stepDet,
      initialTrackerState, iou, IOU_THRESHOLD, T1track, D1bbox, D2bbox, D1det, D2det],
   (C4_matched_detection_keeps_id frame1State [] [] D2det 2000 T1track
      (by norm_num [bestMatch, matchFold, frame1State, updateTracks, stepDet,
        initialTrackerState, iou, IOU_THRESHOLD, T1track, D1bbox, D2bbox, D1det, D2det])).2⟩

/-- `slice(-n)` keeps at most `n` elements. -/
theorem sliceLast_length_le {α : Type} (n : ℕ) (l : List α) :
    (sliceLast n l).length ≤ n := by
  simp only [sliceLast, List.length_drop]
  omega

/-- Elements of the store after `Map.set` are old elements or the new one. -/
theorem mapSet_mem (l : List TrackedPerson) (t u : TrackedPerson) (h : u ∈ mapSet l t) :
    u ∈ l ∨ u = t := by
  unfold mapSet at h
  split at h
  · rcases List.mem_map.1 h with ⟨v, hv, he⟩
    by_cases hid : v.track_id = t.track_id
    · right
      rw [if_pos hid] at he
      exact he.symm
    · left
      rw [if_neg hid] at he
      exact he ▸ hv
  · rcases List.mem_append.1 h with h1 | h1
    · exact Or.inl h1
    · right
      simpa using h1

/-- One detection step keeps every stored and every returned history within
the 10-entry bound. -/
theorem stepDet_histBound (nowMs : ℚ) (acc : TrackerState × List String × List TrackedPerson)
    (det : PersonDetection)
    (h1 : ∀ t ∈ acc.1.activeTracks, t.bbox_history.length ≤ MAX_BBOX_HISTORY)
    (h2 : ∀ t ∈ acc.2.2, t.bbox_history.length ≤ MAX_BBOX_HISTORY) :
    (∀ t ∈ (stepDet nowMs acc det).1.activeTracks,
        t.bbox_history.length ≤ MAX_BBOX_HISTORY) ∧
    (∀ t ∈ (stepDet nowMs acc det).2.2, t.bbox_history.length ≤ MAX_BBOX_HISTORY) := by
  cases hb : (bestMatch acc.1.activeTracks acc.2.1 det.bbox).2 with
  | some bt =>
      simp only [stepDet, hb]
      refine ⟨fun t ht => ?_, fun t ht => ?_⟩
      · rcases mapSet_mem _ _ _ ht with hmem | he
        · exact h1 t hmem
        · rw [he]
          exact sliceLast_length_le _ _
      · rcases List.mem_append.1 ht with hmem | hmem
        · exact h2 t hmem
        · obtain rfl := List.mem_singleton.1 hmem
          exact sliceLast_length_le _ _
  | none =>
      simp only [stepDet, hb]
      refine ⟨fun t ht => ?_, fun t ht => ?_⟩
      · rcases List.mem_append.1 ht with hmem | hmem
        · exact h1 t hmem
        · obtain rfl := List.mem_singleton.1 hmem
          norm_num [MAX_BBOX_HISTORY]
      · rcases List.mem_append.1 ht with hmem | hmem
        · exact h2 t hmem
        · obtain rfl := List.mem_singleton.1 hmem
          norm_num [MAX_BBOX_HISTORY]

/-- The history bound is an invariant of the whole per-frame fold. -/
theorem foldStep_histBound (nowMs : ℚ) :
    ∀ (dets : List PersonDetection) (acc : TrackerState × List String × List TrackedPerson),
      (∀ t ∈ acc.1.activeTracks, t.bbox_history.length ≤ MAX_BBOX_HISTORY) →
      (∀ t ∈ acc.2.2, t.bbox_history.length ≤ MAX_BBOX_HISTORY) →
      (∀ t ∈ (dets.foldl (stepDet nowMs) acc).1.activeTracks,
          t.bbox_history.length ≤ MAX_BBOX_HISTORY) ∧
      (∀ t ∈ (dets.foldl (stepDet nowMs) acc).2.2,
          t.bbox_history.length ≤ MAX_BBOX_HISTORY)
  | [], _, h1, h2 => ⟨h1, h2⟩
  | det :: rest, acc, h1, h2 => by
      rw [List.foldl_cons]
      obtain ⟨g1, g2⟩ := stepDet_histBound nowMs acc det h1 h2
      exact foldStep_histBound nowMs rest _ g1 g2

/-- C9: starting from a store whose tracks all have at most 10 history
entries, `updateTracks` leaves every stored and every returned track with at
most 10 entries; and appending to a full (length-10) history keeps exactly the
10 most recent bboxes — the oldest entry is evicted (FIFO). -/
theorem C9_history_bound (st : TrackerState) (dets : List PersonDetection) (nowMs : ℚ)
    (l : List Bbox) (b : Bbox)
    (h : histBoundB st.activeTracks = true) (hl : l.length = MAX_BBOX_HISTORY) :
    histBoundB (updateTracks st dets nowMs).2.activeTracks = true ∧
    ((updateTracks st dets nowMs).1.all
        (fun t => decide (t.bbox_history.length ≤ MAX_BBOX_HISTORY))) = true ∧
    sliceLast MAX_BBOX_HISTORY (l ++ [b]) = l.drop 1 ++ [b] := by
  have h' : ∀ t ∈ st.activeTracks, t.bbox_history.length ≤ MAX_BBOX_HISTORY := by
    simpa [histBoundB, List.all_eq_true] using h
  obtain ⟨g1, g2⟩ := foldStep_histBound nowMs dets (st, [], []) h' (by simp)
  refine ⟨?_, ?_, ?_⟩
  · simpa [histBoundB, List.all_eq_true, updateTracks] using g1
  · simpa [List.all_eq_true, updateTracks] using g2
  · have h1 : 1 ≤ l.length := by rw [hl]; norm_num [MAX_BBOX_HISTORY]
    simp only [sliceLast, List.length_append, List.length_cons, List.length_nil, hl]
    rw [show MAX_BBOX_HISTORY + (0 + 1) - MAX_BBOX_HISTORY = 1 by omega]
    rw [List.drop_append_of_le_length h1]

/-- Witness for C9: a store with one track carrying a full 10-entry history is
updated with one more detection; the bound still holds everywhere and the
append-to-full case keeps the 10 most recent entries. -/
theorem C9_history_bound_witness :
    (histBoundB c9State.activeTracks = true ∧
      (List.replicate 10 c9Box).length = MAX_BBOX_HISTORY) ∧
    (histBoundB (updateTracks c9State [⟨c9Box, 1⟩] 5).2.activeTracks = true ∧
      ((updateTracks c9State [⟨c9Box, 1⟩] 5).1.all
        (fun t => decide (t.bbox_history.length ≤ MAX_BBOX_HISTORY))) = true ∧
      sliceLast MAX_BBOX_HISTORY (List.replicate 10 c9Box ++ [c9Box]) =
        (List.replicate 10 c9Box).drop 1 ++ [c9Box]) :=
  ⟨⟨by simp [histBoundB, c9State, MAX_BBOX_HISTORY],
    by simp [MAX_BBOX_HISTORY]⟩,
   C9_history_bound c9State [⟨c9Box, 1⟩] 5 (List.replicate 10 c9Box) c9Box
    (by simp [histBoundB, c9State, MAX_BBOX_HISTORY])
    (by simp [MAX_BBOX_HISTORY])⟩

/-- Counterexample to C8 as stated: the boxes are identical, yet `iou` returns
0, not 1 — for a degenerate (zero-area) box the union is 0 and the guard
`union <= 0` returns 0. -/
theorem C8_iou_counterexample :
    iou ⟨0, 0, 0, 0⟩ ⟨0, 0, 0, 0⟩ = 0 ∧ (0 : ℚ) ≠ 1 := by
  constructor
  · norm_num [iou]
  · norm_num

/-- C8 amended: `iou` of two identical boxes is 1 provided the box has positive
width and height; `iou` of two boxes with no overlapping area (empty
intersection on the x- or y-axis) is 0 for every pair of boxes. -/
theorem C8_iou_identical_disjoint :
    (∀ a : Bbox, a.x1 < a.x2 → a.y1 < a.y2 → iou a a = 1) ∧
    (∀ a b : Bbox,
      (min a.x2 b.x2 ≤ max a.x1 b.x1 ∨ min a.y2 b.y2 ≤ max a.y1 b.y1) →
      iou a b = 0) := by
  constructor
  · intro a hx hy
    have hw : (0 : ℚ) ≤ a.x2 - a.x1 := by linarith
    have hh : (0 : ℚ) ≤ a.y2 - a.y1 := by linarith
    have harea : (0 : ℚ) < (a.x2 - a.x1) * (a.y2 - a.y1) := by
      apply mul_pos <;> linarith
    simp only [iou, max_self, min_self, max_eq_right hw, max_eq_right hh]
    rw [if_neg (by linarith)]
    have : (a.x2 - a.x1) * (a.y2 - a.y1) + (a.x2 - a.x1) * (a.y2 - a.y1) -
        (a.x2 - a.x1) * (a.y2 - a.y1) = (a.x2 - a.x1) * (a.y2 - a.y1) := by ring
    rw [this, div_self (ne_of_gt harea)]
  · intro a b hdisj
    have hinter : max 0 (min a.x2 b.x2 - max a.x1 b.x1) *
        max 0 (min a.y2 b.y2 - max a.y1 b.y1) = 0 := by
      rcases hdisj with h | h
      · rw [show max 0 (min a.x2 b.x2 - max a.x1 b.x1) = 0 from max_eq_left (by linarith),
          zero_mul]
      · rw [show max 0 (min a.y2 b.y2 - max a.y1 b.y1) = 0 from max_eq_left (by linarith),
          mul_zero]
    simp only [iou, hinter]
    split
    · rfl
    · exact zero_div _

/-- Witness for C8's amended theorem: the unit box against itself gives 1, and
two unit boxes side by side (touching at x = 1) give 0. -/
theorem C8_iou_identical_disjoint_witness :
    ((0 : ℚ) < 1 ∧ iou ⟨0, 0, 1, 1⟩ ⟨0, 0, 1, 1⟩ = 1) ∧
    (min (1 : ℚ) 3 ≤ max 0 1 ∧ iou ⟨0, 0, 1, 1⟩ ⟨1, 0, 3, 1⟩ = 0) :=
  ⟨⟨by norm_num, C8_iou_identical_disjoint.1 ⟨0, 0, 1, 1⟩ (by norm_num) (by norm_num)⟩,
   ⟨by norm_num, C8_iou_identical_disjoint.2 ⟨0, 0, 1, 1⟩ ⟨1, 0, 3, 1⟩ (Or.inl (by norm_num))⟩⟩

/-- C2 amended: when the classified zone (first enabled containing zone) has
the id of the **first** enabled `"exit"` zone, and no `"checkout"` visit has
`entered_ms ≥ now − checkoutMemoryWindow`, `computeSuspicion` sets
`exit_without_checkout`, pushes the reason, and scores at least 40.  (The
claim's weaker hypothesis — classified into *any* enabled exit zone — is
refuted by `C2_exit_without_checkout_counterexample`.) -/
theorem C2_exit_without_checkout (cfg : SuspicionConfig) (input : SuspicionInput)
    (frameWidth frameHeight : Option ℚ) (ez cz : ZoneConfig)
    (hez : input.zones.find?
      (fun z => decide (z.type = "exit") && !decide (z.enabled = some false)) = some ez)
    (hcz : whichZone (bboxCenter input.track.bbox frameWidth frameHeight) input.zones = some cz)
    (hid : cz.id = ez.id)
    (hchk : input.zone_history.any (fun h =>
        decide (h.zone_type = "checkout") &&
        decide (h.entered_ms ≥ input.now_ms - cfg.checkoutMemorySeconds * 1000)) = false) :
    (computeSuspicion cfg input frameWidth frameHeight).exit_without_checkout = true ∧
    Reason.exit_without_checkout ∈ (computeSuspicion cfg input frameWidth frameHeight).reasons ∧
    40 ≤ (computeSuspicion cfg input frameWidth frameHeight).suspicion_score := by
  simp only [computeSuspicion, exitFlag, hez, hcz, hid, hchk, Bool.not_false,
    eq_self_iff_true, if_true]
  refine ⟨by trivial, ?_, ?_⟩
  · by_cases hd : cfg.dwellSeconds ≤ dwellSumConfigured input <;>
      simp [hd] <;> (try split) <;> simp
  · by_cases hd : cfg.dwellSeconds ≤ dwellSumConfigured input <;>
      simp [hd] <;> (try split) <;>
      norm_num [EXIT_WITHOUT_CHECKOUT_BONUS, DWELL_HIGH_THEFT_BONUS, TORSO_RATIO_SPIKE_BONUS]

/-- Witness for C2 at a concrete input: a single enabled exit zone containing
the track's center and an empty visit history. -/
theorem C2_exit_without_checkout_witness :
    (c2WitnessInput.zones.find?
        (fun z => decide (z.type = "exit") && !decide (z.enabled = some false)) = some exitZoneB ∧
      whichZone (bboxCenter c2WitnessInput.track.bbox none none) c2WitnessInput.zones =
        some exitZoneB ∧
      exitZoneB.id = exitZoneB.id ∧
      c2WitnessInput.zone_history.any (fun h =>
        decide (h.zone_type = "checkout") &&
        decide (h.entered_ms ≥
          c2WitnessInput.now_ms - defaultSuspicionConfig.checkoutMemorySeconds * 1000)) = false) ∧
    ((computeSuspicion defaultSuspicionConfig c2WitnessInput none none).exit_without_checkout =
        true ∧
      Reason.exit_without_checkout ∈
        (computeSuspicion defaultSuspicionConfig c2WitnessInput none none).reasons ∧
      40 ≤ (computeSuspicion defaultSuspicionConfig c2WitnessInput none none).suspicion_score) :=
  ⟨⟨by norm_num [c2WitnessInput, exitZoneB, whichZone, bboxCenter, c2Track, isPointInPolygon,
      List.zip, List.zipWith, List.getLastD, List.dropLast, List.find?,
      (show ((none : Option Bool) = some false) = False by simp)],
    by norm_num [c2WitnessInput, exitZoneB, whichZone, bboxCenter, c2Track, isPointInPolygon,
      List.zip, List.zipWith, List.getLastD, List.dropLast, List.find?,
      (show ((none : Option Bool) = some false) = False by simp)],
    rfl,
    by norm_num [c2WitnessInput]⟩,
   C2_exit_without_checkout defaultSuspicionConfig c2WitnessInput none none exitZoneB exitZoneB
    (by norm_num [c2WitnessInput, exitZoneB, whichZone, bboxCenter, c2Track, isPointInPolygon,
      List.zip, List.zipWith, List.getLastD, List.dropLast, List.find?,
      (show ((none : Option Bool) = some false) = False by simp)])
    (by norm_num [c2WitnessInput, exitZoneB, whichZone, bboxCenter, c2Track, isPointInPolygon,
      List.zip, List.zipWith, List.getLastD, List.dropLast, List.find?,
      (show ((none : Option Bool) = some false) = False by simp)])
    rfl
    (by norm_num [c2WitnessInput])⟩

/-- Counterexample to C2 as stated: two enabled exit zones; the bbox center is
classified into the second one (an enabled exit zone), the history holds no
checkout visit at all — yet `exit_without_checkout` is `false` and the score
is 0, because the source compares the classified zone's id against the
**first** enabled exit zone only. -/
theorem C2_exit_without_checkout_counterexample :
    whichZone (bboxCenter c2CexInput.track.bbox none none) c2CexInput.zones = some exitZoneB ∧
    exitZoneB.type = "exit" ∧ exitZoneB.enabled ≠ some false ∧
    c2CexInput.zone_history = [] ∧
    (computeSuspicion defaultSuspicionConfig c2CexInput none none).exit_without_checkout =
      false ∧
    (computeSuspicion defaultSuspicionConfig c2CexInput none none).suspicion_score = 0 := by
  refine ⟨?_, rfl, by simp [exitZoneB], rfl, ?_, ?_⟩ <;>
    norm_num [computeSuspicion, exitFlag, torsoSpikeFlag, defaultSuspicionConfig, c2CexInput,
      c2Track, whichZone, bboxCenter, isPointInPolygon, exitZoneA, exitZoneB,
      dwellSumConfigured, jsRound,
      List.zip, List.zipWith, List.getLastD, List.dropLast, List.find?,
      sliceLast, bboxTorsoRatio, TORSO_RATIO_WINDOW, EXIT_WITHOUT_CHECKOUT_BONUS,
      (show ((none : Option Bool) = some false) = False by simp),
      (show ("exitB" = "exitA") = False by simp)]

/-- C5 amended: the returned `dwell_high_theft_sec` is the cumulative sum over
the historical `"high_theft"` visit records **whose `zone_id` matches an
enabled high-theft zone of the provided config** (rounded to one decimal), and
exactly 25 points are added, once, when that (unrounded) sum reaches the dwell
threshold; the dwell reason is pushed exactly in that case.  (The claim's
"all historical high_theft records" reading is refuted by
`C5_dwell_counterexample`.) -/
theorem C5_dwell_sum (cfg : SuspicionConfig) (input : SuspicionInput)
    (frameWidth frameHeight : Option ℚ) :
    (computeSuspicion cfg input frameWidth frameHeight).dwell_high_theft_sec =
      (jsRound (dwellSumConfigured input * 10) : ℚ) / 10 ∧
    (Reason.dwell_high_theft (dwellSumConfigured input) ∈
        (computeSuspicion cfg input frameWidth frameHeight).reasons ↔
      dwellSumConfigured input ≥ cfg.dwellSeconds) ∧
    (computeSuspicion cfg input frameWidth frameHeight).suspicion_score =
      min 100
        ((if (computeSuspicion cfg input frameWidth frameHeight).exit_without_checkout then
            EXIT_WITHOUT_CHECKOUT_BONUS else 0) +
          (if dwellSumConfigured input ≥ cfg.dwellSeconds then DWELL_HIGH_THEFT_BONUS else 0) +
          (if (computeSuspicion cfg input frameWidth frameHeight).torso_ratio_spike then
            TORSO_RATIO_SPIKE_BONUS else 0)) := by
  cases hE : exitFlag cfg input frameWidth frameHeight <;>
    cases hS : torsoSpikeFlag input <;>
    by_cases hd : cfg.dwellSeconds ≤ dwellSumConfigured input <;>
    simp [computeSuspicion, hE, hS, hd, ge_iff_le]

/-- Counterexample to C5 as stated: one `"high_theft"` visit 20 s old, but the
zone config lists no high-theft zone.  The claim's sum over all high-theft
records is 20 s ≥ 12 s, so it predicts `dwell_high_theft_sec = 20` and +25
points; the code skips records whose `zone_id` has no enabled high-theft zone
in the config and returns 0 with no dwell points. -/
theorem C5_dwell_counterexample :
    dwellSumAllHighTheft c5CexInput = 20 ∧
    (12 : ℚ) ≤ 20 ∧
    (computeSuspicion defaultSuspicionConfig c5CexInput none none).dwell_high_theft_sec = 0 ∧
    (computeSuspicion defaultSuspicionConfig c5CexInput none none).suspicion_score = 0 := by
  refine ⟨?_, by norm_num, ?_, ?_⟩ <;>
    norm_num [computeSuspicion, exitFlag, torsoSpikeFlag, defaultSuspicionConfig, c5CexInput,
      c2Track, whichZone, bboxCenter, isPointInPolygon, dwellSumConfigured,
      dwellSumAllHighTheft, jsRound,
      List.zip, List.zipWith, List.getLastD, List.dropLast, List.find?,
      sliceLast, bboxTorsoRatio, TORSO_RATIO_WINDOW,
      (show ((none : Option Bool) = some false) = False by simp)]

/-- C6: the local concealment judge returns `concealment_likely =
(exit_without_checkout OR torso_ratio_spike)`, confidence 0.7 when likely and
0.2 otherwise, and recommends `"alert"` exactly when likely and the confidence
is at least 0.7 — `"log_only"` otherwise.  Determinism holds by construction:
the judge is a pure function of its input. -/
theorem C6_local_judge (input : ConcealmentJudgeInput) :
    (LocalFallbackJudge.judge input).concealment_likely =
      (input.exitWithoutCheckout || input.torsoRatioSpike) ∧
    (LocalFallbackJudge.judge input).confidence_0_1 =
      (if input.exitWithoutCheckout || input.torsoRatioSpike then (7 : ℚ)/10 else 2/10) ∧
    ((LocalFallbackJudge.judge input).recommended_action = "alert" ↔
      ((LocalFallbackJudge.judge input).concealment_likely = true ∧
        (7 : ℚ)/10 ≤ (LocalFallbackJudge.judge input).confidence_0_1)) := by
  cases he : input.exitWithoutCheckout <;> cases ht : input.torsoRatioSpike <;>
    simp [LocalFallbackJudge.judge, he, ht]

/-- C7: whenever the local directory/file IO succeeds, `LocalVoiceAlert.play`
returns `success = true` with the local backend on every platform and
regardless of whether `say`/`espeak` work; it never consults any external
credential, so missing credentials can never fail it. -/
theorem C7_local_voice_always_succeeds (w : VoiceWorld) (location cameraId ts : String)
    (hm : w.mkdirOk = true) (hw : w.writeFileOk = true) :
    Except.map VoiceAlertResult.success (LocalVoiceAlert.play w location cameraId ts) =
      .ok true ∧
    Except.map VoiceAlertResult.voiceUsed (LocalVoiceAlert.play w location cameraId ts) =
      .ok "local" := by
  cases hp : w.platform <;> cases hs : w.sayOk <;> cases he : w.espeakOk <;>
    simp [LocalVoiceAlert.play, writeBeepWav, hm, hw, hp, hs, he, Except.map]

/-- Witness for C7: linux with working file IO but no `say` and no `espeak`
still answers a successful local (beep) result. -/
theorem C7_local_voice_always_succeeds_witness :
    (c7World.mkdirOk = true ∧ c7World.writeFileOk = true) ∧
    Except.map VoiceAlertResult.success (LocalVoiceAlert.play c7World "Aisle 3" "cam-1" "t0") =
      .ok true ∧
    Except.map VoiceAlertResult.voiceUsed (LocalVoiceAlert.play c7World "Aisle 3" "cam-1" "t0") =
      .ok "local" :=
  ⟨⟨rfl, rfl⟩,
   (C7_local_voice_always_succeeds c7World "Aisle 3" "cam-1" "t0" rfl rfl).1,
   (C7_local_voice_always_succeeds c7World "Aisle 3" "cam-1" "t0" rfl rfl).2⟩

/-- C3 amended: `runShopliftAlertPipeline` is a total function of the event
and the step oracles (it never raises); when the gate admits, MiniMax yields
no audio, and the voice step throws, the outer catch-all answers a structured
failure `{triggered := false, reason := "pipeline_error"}` and attempts one
suppressed log record whose reason is the thrown `Error`'s message (or
`"pipeline_error"` for a non-`Error` throw) — not always the literal
`"pipeline_error"` the claim states (see
`C3_pipeline_error_counterexample`). -/
theorem C3_pipeline_error (cfg : SAConfig) (st : SAState) (env : PipelineEnv)
    (event : ShopliftingEvent) (nowMs : ℚ) (e : JsError)
    (hgate : (saAlertGate cfg st event nowMs).1 = none)
    (hmm : mmAudio env = none)
    (hvoice : env.voicePlay = .error e) :
    runShopliftAlertPipeline cfg st env event nowMs =
      (⟨false, some "pipeline_error", none, none⟩,
       (saAlertGate cfg st event nowMs).2,
       [LogAttempt.suppressed (jsCatchReason e)]) := by
  simp only [runShopliftAlertPipeline, hgate, hmm, hvoice]

/-- Witness for C3's amended theorem at the concrete "disk full" scenario. -/
theorem C3_pipeline_error_witness :
    ((saAlertGate c3Config emptySAState c3Event 100000).1 = none ∧
      mmAudio c3Env = none ∧
      c3Env.voicePlay = .error (.error "disk full")) ∧
    runShopliftAlertPipeline c3Config emptySAState c3Env c3Event 100000 =
      (⟨false, some "pipeline_error", none, none⟩,
       (saAlertGate c3Config emptySAState c3Event 100000).2,
       [LogAttempt.suppressed (jsCatchReason (.error "disk full"))]) :=
  ⟨⟨by norm_num [saAlertGate, c3Config, emptySAState, c3Event],
    by norm_num [mmAudio, c3Env], rfl⟩,
   C3_pipeline_error c3Config emptySAState c3Env c3Event 100000 (.error "disk full")
    (by norm_num [saAlertGate, c3Config, emptySAState, c3Event])
    (by norm_num [mmAudio, c3Env]) rfl⟩

/-- Counterexample to C3 as stated: with the voice step throwing
`Error("disk full")`, the pipeline does return the structured
`{triggered := false, reason := "pipeline_error"}` failure, but the attempted
suppressed record carries the reason `"disk full"` — the source logs
`e instanceof Error ? e.message : "pipeline_error"`, not the literal
`"pipeline_error"` the claim asserts. -/
theorem C3_pipeline_error_counterexample :
    (runShopliftAlertPipeline c3Config emptySAState c3Env c3Event 100000).2.2 =
      [LogAttempt.suppressed "disk full"] ∧
    ("disk full" = "pipeline_error") = False ∧
    (runShopliftAlertPipeline c3Config emptySAState c3Env c3Event 100000).1 =
      ⟨false, some "pipeline_error", none, none⟩ := by
  refine ⟨?_, by simp, ?_⟩ <;>
    norm_num [runShopliftAlertPipeline, saAlertGate, mmAudio, jsCatchReason,
      c3Config, emptySAState, c3Env, c3Event]
